import Mathlib

/-!
Shallow embedding of the bunnel reverse-HTTP-tunnel core:
the server-side tunnel multiplexer (packages/bunnel-server/src/server/server.ts)
and the agent-side request executor (packages/bunnel/src/client/index.ts).

Sockets are identified by natural numbers; the JS `Map`s `tunnels` and
`pendingRequests` are modelled as association lists with unique keys; the
resolver callbacks stored in `pendingRequests` are modelled by a ghost log
`completions` recording every response delivered to a waiting HTTP caller;
closed sockets are recorded in the ghost set `closed`; live grace timers in
the ghost set `graceArmed`.  The cuid2 subdomain allocator is an external
library; it is modelled as a deterministic fresh-identifier source driven by
the counter `nextSub` (spec 4.2: identifiers are fresh and unique across the
live tunnel set).
-/

namespace Bunnel

/-- WireRequest frame (interface TunnelRequest in server.ts / client types). -/
structure TunnelRequest where
  id : String
  method : String
  path : String
  headers : List (String × String)
  body : Option String
deriving DecidableEq

/-- WireResponse frame (interface TunnelResponse). -/
structure TunnelResponse where
  id : String
  status : Nat
  headers : List (String × String)
  body : String
deriving DecidableEq

/-- An HTTP response as delivered to a waiting HTTP caller
(`new Response(body, { status, headers })`). -/
structure HttpResponse where
  status : Nat
  headers : List (String × String)
  body : String
deriving DecidableEq

/-- Server-side record for one tunnel (interface TunnelInfo in server.ts). -/
structure TunnelInfo where
  controlSocket : Nat
  clientSockets : List Nat
  online : Bool
  graceTimeout : Option Nat
  lastActive : Nat
deriving DecidableEq

/-- One entry of the `pendingRequests` map.  The map in the source stores
`id -> resolve`; the `owner` field is ghost data recording which subdomain's
HTTP request installed the entry (it does not influence any transition). -/
structure PendingEntry where
  id : String
  owner : String
deriving DecidableEq

/-- The whole mutable state of a TunnelServer instance, with ghost logs. -/
structure ServerState where
  tunnels : List (String × TunnelInfo)
  pending : List PendingEntry
  completions : List (String × HttpResponse)
  closed : List Nat
  graceArmed : List String
  nextSub : Nat
  monitorRunning : Bool
deriving DecidableEq

/-- `this.tunnels.get(sub)`. -/
def lookupTunnel (st : ServerState) (sub : String) : Option TunnelInfo :=
  (st.tunnels.find? (fun p => p.1 == sub)).map (·.2)

/-- `this.tunnels.set(sub, t)`: replace in place when the key is present,
append otherwise (JS Map insertion-order semantics). -/
def setTunnelList : List (String × TunnelInfo) → String → TunnelInfo → List (String × TunnelInfo)
  | [], sub, t => [(sub, t)]
  | p :: ps, sub, t => if p.1 == sub then (sub, t) :: ps else p :: setTunnelList ps sub t

def setTunnel (st : ServerState) (sub : String) (t : TunnelInfo) : ServerState :=
  { st with tunnels := setTunnelList st.tunnels sub t }

/-- `this.tunnels.delete(sub)` (keys are unique, so removing every pair with
this key coincides with the Map delete). -/
def deleteTunnel (st : ServerState) (sub : String) : ServerState :=
  { st with tunnels := st.tunnels.filter (fun p => p.1 != sub) }

/-- `this.pendingRequests.set(id, resolve)`. -/
def setPendingList : List PendingEntry → PendingEntry → List PendingEntry
  | [], e => [e]
  | p :: ps, e => if p.id == e.id then e :: ps else p :: setPendingList ps e

/-- `this.pendingRequests.get(id)` viewed as a presence test. -/
def hasPending (st : ServerState) (id : String) : Bool :=
  (st.pending.find? (fun p => p.id == id)).isSome

/-- `this.pendingRequests.delete(id)`. -/
def deletePending (st : ServerState) (id : String) : ServerState :=
  { st with pending := st.pending.filter (fun p => p.id != id) }

/-- `ws.close()`, recorded in the ghost set of closed sockets. -/
def closeSocket (st : ServerState) (sock : Nat) : ServerState :=
  if sock ∈ st.closed then st else { st with closed := st.closed ++ [sock] }

/-- The cuid2 `createId` allocator (external library, length-12 ids),
modelled as a deterministic fresh-identifier source. -/
def generateSubdomain (n : Nat) : String :=
  "tun" ++ toString n

/-- State of a fresh TunnelServer after `start()`. -/
def initState : ServerState :=
  ⟨[], [], [], [], [], 0, true⟩

/-- Split a character list at a separator, JS `String.split` semantics:
the empty list yields one empty group, adjacent separators yield empty
groups. -/
def splitChars (sep : Char) : List Char → List (List Char)
  | [] => [[]]
  | c :: cs =>
    match splitChars sep cs with
    | [] => [[]]
    | g :: gs => if c = sep then [] :: g :: gs else (c :: g) :: gs

/-- JS `s.split(sep)` for a one-character separator. -/
def splitOnChar (sep : Char) (s : String) : List String :=
  (splitChars sep s.data).map (fun l => ⟨l⟩)

/-- `host.includes(':') ? host.split(':')[0] : host`. -/
def stripPort (host : String) : String :=
  (splitOnChar ':' host).headD host

/-- The label list the routing code works on: port stripped, split on dots. -/
def hostParts (host : String) : List String :=
  splitOnChar '.' (stripPort host)

end Bunnel

namespace Bunnel

/-- Outcome of the WebSocket-upgrade routing in handleRequest. -/
inductive UpgradeDecision where
  | control (sub : String)
  | client (sub : String)
  | notFound
deriving DecidableEq

/-- WebSocket-upgrade routing (server.ts handleRequest, lines 193-230):
a host with at least two labels whose last label is `localhost` is a
client-channel request for the first label (404 when that label is not a
live tunnel); every other host becomes a new agent control connection with
a freshly allocated subdomain. -/
def routeUpgrade (st : ServerState) (host : String) : UpgradeDecision × ServerState :=
  let parts := hostParts host
  if 2 ≤ parts.length ∧ parts.getLast? = some "localhost" then
    let sub := parts.headD ""
    match lookupTunnel st sub with
    | none => (.notFound, st)
    | some _ => (.client sub, st)
  else
    (.control (generateSubdomain st.nextSub), { st with nextSub := st.nextSub + 1 })

/-- The 502 completion delivered when a tunnel is cleaned up
(`new Response('Tunnel connection lost', { status: 502 })`). -/
def lostResponse : HttpResponse := ⟨502, [], "Tunnel connection lost"⟩

/-- cleanupTunnel (server.ts lines 425-462): clear the grace timer, close
every client socket, close the control socket if still open, remove the
registry entry, and resolve every entry of the pending map — whatever
tunnel installed it — with a 502 "Tunnel connection lost". -/
def cleanupTunnel (st : ServerState) (sub : String) : ServerState :=
  match lookupTunnel st sub with
  | none => st
  | some t =>
    let st1 := { st with graceArmed := st.graceArmed.filter (· != sub) }
    let st2 := t.clientSockets.foldl closeSocket st1
    let st3 := closeSocket st2 t.controlSocket
    let st4 := deleteTunnel st3 sub
    { st4 with
      completions := st4.completions ++ st4.pending.map (fun p => (p.id, lostResponse)),
      pending := [] }

/-- cleanupWebSocket (server.ts lines 464-484). -/
def cleanupWebSocket (st : ServerState) (sock : Nat) (sub : String) (isControl : Bool) :
    ServerState :=
  if sub == "" then st
  else
    let st1 :=
      if isControl then cleanupTunnel st sub
      else
        match lookupTunnel st sub with
        | none => st
        | some t => setTunnel st sub { t with clientSockets := t.clientSockets.filter (· != sock) }
    closeSocket st1 sock

/-- handleWebSocketOpen (server.ts lines 314-369).  `now` is `Date.now()`.
The ConnectedMessage send is modelled as succeeding. -/
def handleWebSocketOpen (st : ServerState) (now : Nat) (sock : Nat) (sub : String)
    (isControl : Bool) : ServerState :=
  if sub == "" then closeSocket st sock
  else if isControl then
    match lookupTunnel st sub with
    | some t =>
      if t.online = false then
        let st1 := { st with graceArmed := st.graceArmed.filter (· != sub) }
        setTunnel st1 sub { t with controlSocket := sock, online := true, lastActive := now }
      else
        setTunnel st sub ⟨sock, [], true, none, now⟩
    | none => setTunnel st sub ⟨sock, [], true, none, now⟩
  else
    match lookupTunnel st sub with
    | none => closeSocket st sock
    | some t => setTunnel st sub { t with clientSockets := t.clientSockets ++ [sock] }

/-- handleWebSocketClose (server.ts lines 402-423): a closing control socket
puts the tunnel offline and arms the grace timer; a closing client socket is
dropped from the set and refreshes `lastActive`. -/
def handleWebSocketClose (st : ServerState) (now : Nat) (sock : Nat) (sub : String) :
    ServerState :=
  if sub == "" then st
  else
    match lookupTunnel st sub with
    | none => st
    | some t =>
      if sock == t.controlSocket then
        let st1 := setTunnel st sub { t with online := false, graceTimeout := some 1 }
        { st1 with graceArmed := st1.graceArmed ++ [sub] }
      else
        setTunnel st sub
          { t with clientSockets := t.clientSockets.filter (· != sock), lastActive := now }

/-- Firing of the grace timer armed by handleWebSocketClose
(server.ts lines 412-415); it runs only while not cancelled. -/
def graceExpire (st : ServerState) (sub : String) : ServerState :=
  if sub ∈ st.graceArmed then cleanupTunnel st sub else st

/-- A frame arriving on a server-side socket, as seen after `JSON.parse`:
either it parses as a TunnelResponse or the parse throws. -/
inductive WireMsg where
  | frame (resp : TunnelResponse)
  | garbage
deriving DecidableEq

/-- handleWebSocketMessage (server.ts lines 371-400).  On the control socket
a parsed response resolves the matching pending entry (if any) and deletes
it; an unparseable frame is caught and routes to cleanupWebSocket.  A
message on a client socket is relayed verbatim to the control socket and
mutates nothing. -/
def handleWebSocketMessage (st : ServerState) (sock : Nat) (sub : String) (isControl : Bool)
    (msg : WireMsg) : ServerState :=
  if sub == "" then st
  else
    match lookupTunnel st sub with
    | none => st
    | some t =>
      if sock == t.controlSocket then
        match msg with
        | .frame resp =>
          if hasPending st resp.id then
            let st1 := { st with
              completions := st.completions ++ [(resp.id, ⟨resp.status, resp.headers, resp.body⟩)] }
            deletePending st1 resp.id
          else st
        | .garbage => cleanupWebSocket st sock sub isControl
      else
        st

/-- An incoming HTTP request as the forwarding path sees it: method,
`url.pathname + url.search`, header list, materialised body. -/
structure HttpReq where
  method : String
  path : String
  headers : List (String × String)
  body : Option String
deriving DecidableEq

/-- JS object assignment `obj[key] = value`: replace in place or append. -/
def upsertHeader : List (String × String) → String → String → List (String × String)
  | [], k, v => [(k, v)]
  | p :: ps, k, v => if p.1 == k then (k, v) :: ps else p :: upsertHeader ps k v

/-- headersToObject (server.ts lines 490-496) and the agent's identical
forEach loop: fold the header pairs into a JS object, last write wins. -/
def headersToObject (hs : List (String × String)) : List (String × String) :=
  hs.foldl (fun acc kv => upsertHeader acc kv.1 kv.2) []

/-- The TunnelRequest built by handleRequest (server.ts lines 265-271). -/
def buildTunnelRequest (reqId : String) (r : HttpReq) : TunnelRequest :=
  ⟨reqId, r.method, r.path, headersToObject r.headers, r.body⟩

/-- The externally visible actions of the forwarding path, in program
order. -/
inductive ForwardAction where
  | sendFrame (w : TunnelRequest)
  | installPending (id : String)
deriving DecidableEq

def notFoundResponse : HttpResponse := ⟨404, [], "Tunnel not found"⟩

/-- The synchronous part of the tunneled-HTTP branch of handleRequest
(server.ts lines 246-291): look up the tunnel (404 when absent), build the
TunnelRequest, send it over the control socket, then install the pending
entry — in that order, inside one uninterrupted handler turn.  The returned
HttpResponse is the immediate reply (`none` when the caller is left
awaiting a completion). -/
def forwardRequest (st : ServerState) (sub : String) (reqId : String) (r : HttpReq) :
    ServerState × Option HttpResponse × List ForwardAction :=
  match lookupTunnel st sub with
  | none => (st, some notFoundResponse, [])
  | some _ =>
    let w := buildTunnelRequest reqId r
    ({ st with pending := setPendingList st.pending ⟨reqId, sub⟩ }, none,
      [.sendFrame w, .installPending reqId])

def timeoutResponse : HttpResponse := ⟨504, [], "Request timeout"⟩

/-- The 30-second timeout firing for a request id (server.ts lines 285-299):
the timer callback deletes the pending entry and rejects, and the catch
block turns the rejection into a 504 "Request timeout" for the caller. -/
def requestTimeout (st : ServerState) (reqId : String) : ServerState × HttpResponse :=
  (deletePending st reqId, timeoutResponse)

/-- stop (server.ts lines 103-110): cancel the idle monitor, stop the
listener, clear the tunnel map and the pending map. -/
def stop (st : ServerState) : ServerState :=
  { st with monitorRunning := false, tunnels := [], pending := [] }

/-- The local HTTP service the agent forwards to (external collaborator):
method, full URL, headers, body ↦ status, headers (as exposed by the
platform Headers object), body text. -/
def LocalService : Type :=
  String → String → List (String × String) → Option String → Nat × List (String × String) × String

/-- The agent's onmessage handling of a request frame
(client/index.ts lines 116-198): perform the request against
`localServerUrl + request.path` with the frame's method, headers and body,
collect status/headers/body, and answer under the same id. -/
def agentHandleRequest (localServerUrl : String) (svc : LocalService) (w : TunnelRequest) :
    TunnelResponse :=
  let out := svc w.method (localServerUrl ++ w.path) w.headers w.body
  ⟨w.id, out.1, headersToObject out.2.1, out.2.2⟩

/-- Agent-side client state: the socket handle, `null` when disconnected. -/
structure TunnelClient where
  ws : Option Nat
deriving DecidableEq

/-- Externally visible steps of `connect()`, in program order. -/
inductive ConnectStep where
  | probeLocal
  | openSocket
deriving DecidableEq

/-- Result of the `connect()` call prefix: the promise is left awaiting the
connected notice, or an error is thrown. -/
inductive ConnectResult where
  | pendingOpen
  | failed (msg : String)
deriving DecidableEq

structure ConnectOutcome where
  state : TunnelClient
  result : ConnectResult
  steps : List ConnectStep
deriving DecidableEq

/-- TunnelClient.connect (client/index.ts lines 83-96): throw
"Already connected" when a socket handle exists; otherwise probe the local
service (checkLocalServerAvailability, which throws a templated
"Local server ... is unavailable" error on failure) and only then open the
WebSocket. -/
def TunnelClient.connect (c : TunnelClient) (probeOk : Bool) (newSock : Nat) : ConnectOutcome :=
  if c.ws.isSome then ⟨c, .failed "Already connected", []⟩
  else if probeOk then ⟨⟨some newSock⟩, .pendingOpen, [.probeLocal, .openSocket]⟩
  else ⟨c, .failed "Local server unavailable", [.probeLocal]⟩

end Bunnel

example : Bunnel.hostParts "abc.localhost:4444" = ["abc", "localhost"] := by decide
example : Bunnel.hostParts "example.com" = ["example", "com"] := by decide
example : (Bunnel.routeUpgrade Bunnel.initState "example.com").1
    = Bunnel.UpgradeDecision.control "tun0" := by decide

namespace Bunnel

theorem closeSocket_tunnels (st : ServerState) (k : Nat) :
    (closeSocket st k).tunnels = st.tunnels := by
  unfold closeSocket; split <;> rfl

theorem closeSocket_pending (st : ServerState) (k : Nat) :
    (closeSocket st k).pending = st.pending := by
  unfold closeSocket; split <;> rfl

theorem closeSocket_completions (st : ServerState) (k : Nat) :
    (closeSocket st k).completions = st.completions := by
  unfold closeSocket; split <;> rfl

theorem closeSocket_graceArmed (st : ServerState) (k : Nat) :
    (closeSocket st k).graceArmed = st.graceArmed := by
  unfold closeSocket; split <;> rfl

theorem foldl_closeSocket_tunnels (l : List Nat) (st : ServerState) :
    (l.foldl closeSocket st).tunnels = st.tunnels := by
  induction l generalizing st with
  | nil => rfl
  | cons a l ih => rw [List.foldl_cons, ih, closeSocket_tunnels]

theorem foldl_closeSocket_pending (l : List Nat) (st : ServerState) :
    (l.foldl closeSocket st).pending = st.pending := by
  induction l generalizing st with
  | nil => rfl
  | cons a l ih => rw [List.foldl_cons, ih, closeSocket_pending]

theorem foldl_closeSocket_completions (l : List Nat) (st : ServerState) :
    (l.foldl closeSocket st).completions = st.completions := by
  induction l generalizing st with
  | nil => rfl
  | cons a l ih => rw [List.foldl_cons, ih, closeSocket_completions]

theorem foldl_closeSocket_graceArmed (l : List Nat) (st : ServerState) :
    (l.foldl closeSocket st).graceArmed = st.graceArmed := by
  induction l generalizing st with
  | nil => rfl
  | cons a l ih => rw [List.foldl_cons, ih, closeSocket_graceArmed]

theorem mem_closed_closeSocket_self (st : ServerState) (k : Nat) :
    k ∈ (closeSocket st k).closed := by
  unfold closeSocket; split
  · assumption
  · simp

theorem closed_closeSocket_mono (st : ServerState) (k a : Nat) (h : a ∈ st.closed) :
    a ∈ (closeSocket st k).closed := by
  unfold closeSocket; split
  · exact h
  · simp [h]

theorem closed_foldl_closeSocket_mono (l : List Nat) (st : ServerState) (a : Nat)
    (h : a ∈ st.closed) : a ∈ (l.foldl closeSocket st).closed := by
  induction l generalizing st with
  | nil => exact h
  | cons b l ih => exact ih (closeSocket st b) (closed_closeSocket_mono st b a h)

theorem mem_closed_foldl_closeSocket (l : List Nat) (st : ServerState) (a : Nat)
    (h : a ∈ l) : a ∈ (l.foldl closeSocket st).closed := by
  induction l generalizing st with
  | nil => cases h
  | cons b l ih =>
    rw [List.foldl_cons]
    rcases List.mem_cons.mp h with h1 | h2
    · exact closed_foldl_closeSocket_mono l _ a (h1 ▸ mem_closed_closeSocket_self st b)
    · exact ih _ h2

theorem find?_filter_key_self {α : Type} (key : α → String) (l : List α) (k : String) :
    (l.filter (fun p => key p != k)).find? (fun p => key p == k) = none := by
  induction l with
  | nil => rfl
  | cons a l ih =>
    by_cases h : key a = k
    · simp [List.filter_cons, h, ih]
    · simp [List.filter_cons, h, List.find?, ih]

theorem find?_filter_key_other {α : Type} (key : α → String) (l : List α) (k k' : String)
    (h : k' ≠ k) :
    (l.filter (fun p => key p != k)).find? (fun p => key p == k')
      = l.find? (fun p => key p == k') := by
  induction l with
  | nil => rfl
  | cons a l ih =>
    by_cases ha : key a = k
    · have h1 : (key a != k) = false := by simp [ha]
      have h2 : (key a == k') = false := by
        rw [beq_eq_false_iff_ne, ha]; exact fun hh => h hh.symm
      simp [List.filter_cons, h1, List.find?, h2, ih]
    · by_cases ha' : key a = k'
      · have h1 : (key a != k) = true := by simp [ha]
        have h2 : (key a == k') = true := by simp [ha']
        simp [List.filter_cons, h1, List.find?, h2]
      · have h1 : (key a != k) = true := by simp [ha]
        have h2 : (key a == k') = false := by simp [ha']
        simp [List.filter_cons, h1, List.find?, h2, ih]

theorem find?_setTunnelList_self (l : List (String × TunnelInfo)) (sub : String)
    (t : TunnelInfo) :
    (setTunnelList l sub t).find? (fun p => p.1 == sub) = some (sub, t) := by
  induction l with
  | nil => simp [setTunnelList, List.find?]
  | cons a l ih =>
    by_cases h : a.1 = sub
    · simp [setTunnelList, h, List.find?]
    · simp [setTunnelList, h, List.find?, ih]

theorem lookupTunnel_setTunnel_self (st : ServerState) (sub : String) (t : TunnelInfo) :
    lookupTunnel (setTunnel st sub t) sub = some t := by
  simp [lookupTunnel, setTunnel, find?_setTunnelList_self]

theorem find?_setPendingList_self (l : List PendingEntry) (e : PendingEntry) :
    (setPendingList l e).find? (fun p => p.id == e.id) = some e := by
  induction l with
  | nil => simp [setPendingList, List.find?]
  | cons a l ih =>
    by_cases h : a.id = e.id
    · simp [setPendingList, h, List.find?]
    · simp [setPendingList, h, List.find?, ih]

theorem setPendingList_fresh (l : List PendingEntry) (e : PendingEntry)
    (h : ∀ p ∈ l, p.id ≠ e.id) : setPendingList l e = l ++ [e] := by
  induction l with
  | nil => rfl
  | cons a l ih =>
    have ha : a.id ≠ e.id := h a (List.mem_cons_self a l)
    simp [setPendingList, ha, ih (fun p hp => h p (List.mem_cons_of_mem a hp))]

theorem filter_append_fresh (l : List PendingEntry) (e : PendingEntry)
    (h : ∀ p ∈ l, p.id ≠ e.id) :
    (l ++ [e]).filter (fun p => p.id != e.id) = l := by
  rw [List.filter_append]
  have h1 : l.filter (fun p => p.id != e.id) = l :=
    List.filter_eq_self.mpr (fun p hp => by simp [h p hp])
  have h2 : [e].filter (fun p => p.id != e.id) = [] := by simp
  rw [h1, h2, List.append_nil]

theorem cleanupTunnel_none (st : ServerState) (sub : String)
    (h : lookupTunnel st sub = none) : cleanupTunnel st sub = st := by
  unfold cleanupTunnel; rw [h]

theorem cleanupTunnel_tunnels (st : ServerState) (sub : String) (t : TunnelInfo)
    (ht : lookupTunnel st sub = some t) :
    (cleanupTunnel st sub).tunnels = st.tunnels.filter (fun p => p.1 != sub) := by
  unfold cleanupTunnel
  rw [ht]
  simp [deleteTunnel, closeSocket_tunnels, foldl_closeSocket_tunnels]

theorem cleanupTunnel_pending (st : ServerState) (sub : String) (t : TunnelInfo)
    (ht : lookupTunnel st sub = some t) :
    (cleanupTunnel st sub).pending = [] := by
  unfold cleanupTunnel
  rw [ht]

theorem cleanupTunnel_completions (st : ServerState) (sub : String) (t : TunnelInfo)
    (ht : lookupTunnel st sub = some t) :
    (cleanupTunnel st sub).completions
      = st.completions ++ st.pending.map (fun p => (p.id, lostResponse)) := by
  unfold cleanupTunnel
  rw [ht]
  simp [deleteTunnel, closeSocket_completions, foldl_closeSocket_completions,
    closeSocket_pending, foldl_closeSocket_pending]

theorem cleanupTunnel_lookup_self (st : ServerState) (sub : String) (t : TunnelInfo)
    (ht : lookupTunnel st sub = some t) :
    lookupTunnel (cleanupTunnel st sub) sub = none := by
  rw [lookupTunnel, cleanupTunnel_tunnels st sub t ht]
  rw [find?_filter_key_self (fun p => p.1) st.tunnels sub]
  rfl

theorem cleanupTunnel_lookup_other (st : ServerState) (sub s' : String) (t : TunnelInfo)
    (ht : lookupTunnel st sub = some t) (h : s' ≠ sub) :
    lookupTunnel (cleanupTunnel st sub) s' = lookupTunnel st s' := by
  rw [lookupTunnel, cleanupTunnel_tunnels st sub t ht]
  rw [find?_filter_key_other (fun p => p.1) st.tunnels sub s' h]
  rfl

theorem cleanupTunnel_closed_control (st : ServerState) (sub : String) (t : TunnelInfo)
    (ht : lookupTunnel st sub = some t) :
    t.controlSocket ∈ (cleanupTunnel st sub).closed := by
  unfold cleanupTunnel
  rw [ht]
  exact mem_closed_closeSocket_self _ _

theorem cleanupTunnel_closed_clients (st : ServerState) (sub : String) (t : TunnelInfo)
    (ht : lookupTunnel st sub = some t) (c : Nat) (hc : c ∈ t.clientSockets) :
    c ∈ (cleanupTunnel st sub).closed := by
  unfold cleanupTunnel
  rw [ht]
  exact closed_closeSocket_mono _ _ _ (mem_closed_foldl_closeSocket _ _ _ hc)

end Bunnel

namespace Bunnel

theorem lookupTunnel_closeSocket (st : ServerState) (k : Nat) (sub : String) :
    lookupTunnel (closeSocket st k) sub = lookupTunnel st sub := by
  simp [lookupTunnel, closeSocket_tunnels]

/-- C5: when the 30-second timeout fires for a request id, the pending entry
for that id is removed, the HTTP caller receives a 504 response with body
"Request timeout", and the tunnel registry (and the set of armed grace
timers) is untouched — in particular the tunnel of that request stays
Online. -/
theorem c5_timeout_504_tunnel_intact (st : ServerState) (reqId : String) :
    (requestTimeout st reqId).1.tunnels = st.tunnels ∧
    (requestTimeout st reqId).1.graceArmed = st.graceArmed ∧
    (requestTimeout st reqId).2 = ⟨504, [], "Request timeout"⟩ ∧
    hasPending (requestTimeout st reqId).1 reqId = false ∧
    (requestTimeout st reqId).1.pending = st.pending.filter (fun p => p.id != reqId) := by
  refine ⟨rfl, rfl, rfl, ?_, rfl⟩
  show ((st.pending.filter (fun p => p.id != reqId)).find? (fun p => p.id == reqId)).isSome
    = false
  rw [find?_filter_key_self (fun p => p.id) st.pending reqId]
  rfl

/-- C6: a well-formed WireResponse frame arriving on a live tunnel's control
channel whose id is not in the pending table is a no-op: the whole server
state (registry, pending table, completion log) is unchanged. -/
theorem c6_unknown_id_noop (st : ServerState) (sub : String) (t : TunnelInfo)
    (resp : TunnelResponse) (hsub : sub ≠ "") (ht : lookupTunnel st sub = some t)
    (hunknown : hasPending st resp.id = false) :
    handleWebSocketMessage st t.controlSocket sub true (.frame resp) = st := by
  have hs : (sub == "") = false := by simp [hsub]
  simp [handleWebSocketMessage, hs, ht, hunknown]

/-- Witness for c6_unknown_id_noop at a concrete state and frame. -/
theorem c6_unknown_id_noop_witness :
    handleWebSocketMessage
        ⟨[("s1", ⟨1, [], true, none, 0⟩)], [], [], [], [], 1, true⟩ 1 "s1" true
        (.frame ⟨"zz", 200, [], "ok"⟩)
      = ⟨[("s1", ⟨1, [], true, none, 0⟩)], [], [], [], [], 1, true⟩ :=
  c6_unknown_id_noop ⟨[("s1", ⟨1, [], true, none, 0⟩)], [], [], [], [], 1, true⟩ "s1"
    ⟨1, [], true, none, 0⟩ ⟨"zz", 200, [], "ok"⟩ (by decide) (by decide) (by decide)

/-- C10: calling connect() while a socket handle exists throws
"Already connected" without probing the local service, without opening a
second socket, and leaves the client state unchanged. -/
theorem c10_connect_already_connected (c : TunnelClient) (k : Nat) (probeOk : Bool)
    (newSock : Nat) (h : c.ws = some k) :
    TunnelClient.connect c probeOk newSock
      = ⟨c, .failed "Already connected", []⟩ := by
  simp [TunnelClient.connect, h]

/-- Witness for c10_connect_already_connected at a concrete client. -/
theorem c10_connect_already_connected_witness :
    TunnelClient.connect ⟨some 5⟩ true 6
      = ⟨⟨some 5⟩, .failed "Already connected", []⟩ :=
  c10_connect_already_connected ⟨some 5⟩ 5 true 6 (by decide)

/-- Counterexample to C9 as stated: stopping a server that still has the
pending entry "r1" empties the pending table but delivers no completion at
all — no 502 "Tunnel connection lost" reaches the waiting caller. -/
theorem c9_stop_no_drain_cex :
    (stop ⟨[("s1", ⟨1, [], true, none, 0⟩)], [⟨"r1", "s1"⟩], [], [], [], 1, true⟩).pending
      = [] ∧
    (stop ⟨[("s1", ⟨1, [], true, none, 0⟩)], [⟨"r1", "s1"⟩], [], [], [], 1, true⟩).completions
      = [] := by
  decide

/-- C9 amended: stop cancels the idle monitor and empties the registry and
the pending table, but it completes no pending entry: the completion log
(and the set of closed sockets) is exactly what it was, so stop itself
delivers nothing to waiting callers. -/
theorem c9_stop_clears_maps_amended (st : ServerState) :
    (stop st).monitorRunning = false ∧ (stop st).tunnels = [] ∧
    (stop st).pending = [] ∧ (stop st).completions = st.completions ∧
    (stop st).closed = st.closed :=
  ⟨rfl, rfl, rfl, rfl, rfl⟩

/-- Counterexample to C3 as stated: reaping tunnel "s1" also completes (with
502 "Tunnel connection lost") and removes the pending entry "r2" owned by
the distinct live tunnel "s2", which the claim says must stay present and
uncompleted. -/
theorem c3_reap_drains_foreign_pending_cex :
    (cleanupTunnel ⟨[("s1", ⟨1, [], true, none, 0⟩), ("s2", ⟨2, [], true, none, 0⟩)],
        [⟨"r1", "s1"⟩, ⟨"r2", "s2"⟩], [], [], [], 0, true⟩ "s1").pending = [] ∧
    ("r2", lostResponse) ∈
      (cleanupTunnel ⟨[("s1", ⟨1, [], true, none, 0⟩), ("s2", ⟨2, [], true, none, 0⟩)],
        [⟨"r1", "s1"⟩, ⟨"r2", "s2"⟩], [], [], [], 0, true⟩ "s1").completions ∧
    lookupTunnel (cleanupTunnel ⟨[("s1", ⟨1, [], true, none, 0⟩), ("s2", ⟨2, [], true, none, 0⟩)],
        [⟨"r1", "s1"⟩, ⟨"r2", "s2"⟩], [], [], [], 0, true⟩ "s1") "s2"
      = some ⟨2, [], true, none, 0⟩ := by
  decide

/-- C3 amended: reaping a live subdomain completes EVERY entry of the
pending table — whichever tunnel owns it — with a 502 "Tunnel connection
lost" and empties the table; the reaped subdomain is removed from the
registry while every other tunnel's registry entry is untouched; reap is
idempotent. -/
theorem c3_reap_drains_all_pending (st : ServerState) (sub : String) (t : TunnelInfo)
    (ht : lookupTunnel st sub = some t) :
    (cleanupTunnel st sub).pending = [] ∧
    (cleanupTunnel st sub).completions
      = st.completions ++ st.pending.map (fun p => (p.id, lostResponse)) ∧
    lookupTunnel (cleanupTunnel st sub) sub = none ∧
    (∀ s', s' ≠ sub → lookupTunnel (cleanupTunnel st sub) s' = lookupTunnel st s') ∧
    cleanupTunnel (cleanupTunnel st sub) sub = cleanupTunnel st sub :=
  ⟨cleanupTunnel_pending st sub t ht, cleanupTunnel_completions st sub t ht,
    cleanupTunnel_lookup_self st sub t ht,
    fun s' h => cleanupTunnel_lookup_other st sub s' t ht h,
    cleanupTunnel_none _ _ (cleanupTunnel_lookup_self st sub t ht)⟩

/-- Witness for c3_reap_drains_all_pending at a concrete state. -/
theorem c3_reap_drains_all_pending_witness :
    lookupTunnel ⟨[("sA", ⟨1, [], true, none, 0⟩)], [⟨"rA", "sA"⟩], [], [], [], 0, true⟩ "sA"
      = some ⟨1, [], true, none, 0⟩ ∧
    (cleanupTunnel ⟨[("sA", ⟨1, [], true, none, 0⟩)], [⟨"rA", "sA"⟩], [], [], [], 0, true⟩
        "sA").pending = [] :=
  ⟨by decide,
    (c3_reap_drains_all_pending
      ⟨[("sA", ⟨1, [], true, none, 0⟩)], [⟨"rA", "sA"⟩], [], [], [], 0, true⟩ "sA"
      ⟨1, [], true, none, 0⟩ (by decide)).1⟩

/-- Counterexample to C4 as stated: for a concrete forwarded request the
handler's action order is [send frame, install pending entry] — the install
does not precede the send. -/
theorem c4_send_precedes_install_cex :
    (forwardRequest ⟨[("s1", ⟨1, [], true, none, 0⟩)], [], [], [], [], 0, true⟩ "s1" "r1"
        ⟨"GET", "/", [], none⟩).2.2
      = [.sendFrame ⟨"r1", "GET", "/", [], none⟩, .installPending "r1"] ∧
    ¬ (List.indexOf (ForwardAction.installPending "r1")
          (forwardRequest ⟨[("s1", ⟨1, [], true, none, 0⟩)], [], [], [], [], 0, true⟩ "s1" "r1"
            ⟨"GET", "/", [], none⟩).2.2
        < List.indexOf (ForwardAction.sendFrame ⟨"r1", "GET", "/", [], none⟩)
          (forwardRequest ⟨[("s1", ⟨1, [], true, none, 0⟩)], [], [], [], [], 0, true⟩ "s1" "r1"
            ⟨"GET", "/", [], none⟩).2.2) := by
  decide

end Bunnel

namespace Bunnel

/-- C4 amended: the frame send and the pending-entry install both happen
inside the single uninterrupted handler turn of the forwarding path, with
the send first; at the end of that turn the entry is installed, so a
response frame processed in any later turn still finds the entry and
completes the caller with the response's triple. -/
theorem c4_install_same_turn_as_send (st : ServerState) (sub : String) (t : TunnelInfo)
    (reqId : String) (r : HttpReq) (hsub : sub ≠ "") (ht : lookupTunnel st sub = some t) :
    (forwardRequest st sub reqId r).2.2
      = [.sendFrame (buildTunnelRequest reqId r), .installPending reqId] ∧
    hasPending (forwardRequest st sub reqId r).1 reqId = true ∧
    (∀ resp : TunnelResponse, resp.id = reqId →
      (handleWebSocketMessage (forwardRequest st sub reqId r).1 t.controlSocket sub true
          (.frame resp)).completions
        = st.completions ++ [(resp.id, ⟨resp.status, resp.headers, resp.body⟩)]) := by
  have hs : (sub == "") = false := by simp [hsub]
  have hfind : (setPendingList st.pending ⟨reqId, sub⟩).find? (fun p => p.id == reqId)
      = some ⟨reqId, sub⟩ := find?_setPendingList_self st.pending ⟨reqId, sub⟩
  have hfw : (forwardRequest st sub reqId r).1
      = { st with pending := setPendingList st.pending ⟨reqId, sub⟩ } := by
    simp [forwardRequest, ht]
  refine ⟨by simp [forwardRequest, ht], ?_, ?_⟩
  · rw [hfw]
    show ((setPendingList st.pending ⟨reqId, sub⟩).find? (fun p => p.id == reqId)).isSome = true
    rw [hfind]; rfl
  · intro resp hid
    rw [hfw]
    have hlook : lookupTunnel { st with pending := setPendingList st.pending ⟨reqId, sub⟩ } sub
        = some t := ht
    have hhas : hasPending { st with pending := setPendingList st.pending ⟨reqId, sub⟩ } resp.id
        = true := by
      rw [hid]
      show ((setPendingList st.pending ⟨reqId, sub⟩).find? (fun p => p.id == reqId)).isSome
        = true
      rw [hfind]; rfl
    simp [handleWebSocketMessage, hs, hlook, hhas, deletePending]

/-- Witness for c4_install_same_turn_as_send at a concrete state. -/
theorem c4_install_same_turn_as_send_witness :
    ("sB" : String) ≠ "" ∧
    hasPending (forwardRequest ⟨[("sB", ⟨3, [], true, none, 0⟩)], [], [], [], [], 0, true⟩
        "sB" "rB" ⟨"GET", "/x", [], none⟩).1 "rB" = true :=
  ⟨by decide,
    (c4_install_same_turn_as_send ⟨[("sB", ⟨3, [], true, none, 0⟩)], [], [], [], [], 0, true⟩
      "sB" ⟨3, [], true, none, 0⟩ "rB" ⟨"GET", "/x", [], none⟩ (by decide) (by decide)).2.1⟩

/-- C7: an unparseable frame on a live tunnel's control channel reaps that
tunnel: its registry entry is removed, its control socket and all of its
client sockets are closed, and every other tunnel's registry entry is left
exactly as it was (the failure is fatal to this session only). -/
theorem c7_unparseable_frame_reaps_tunnel (st : ServerState) (sub : String) (t : TunnelInfo)
    (hsub : sub ≠ "") (ht : lookupTunnel st sub = some t) :
    lookupTunnel (handleWebSocketMessage st t.controlSocket sub true .garbage) sub = none ∧
    (∀ s', s' ≠ sub →
      lookupTunnel (handleWebSocketMessage st t.controlSocket sub true .garbage) s'
        = lookupTunnel st s') ∧
    t.controlSocket ∈ (handleWebSocketMessage st t.controlSocket sub true .garbage).closed ∧
    ∀ c ∈ t.clientSockets,
      c ∈ (handleWebSocketMessage st t.controlSocket sub true .garbage).closed := by
  have hs : (sub == "") = false := by simp [hsub]
  have hred : handleWebSocketMessage st t.controlSocket sub true .garbage
      = closeSocket (cleanupTunnel st sub) t.controlSocket := by
    simp [handleWebSocketMessage, hs, ht, cleanupWebSocket]
  rw [hred]
  refine ⟨?_, fun s' h => ?_, ?_, fun c hc => ?_⟩
  · rw [lookupTunnel_closeSocket]
    exact cleanupTunnel_lookup_self st sub t ht
  · rw [lookupTunnel_closeSocket]
    exact cleanupTunnel_lookup_other st sub s' t ht h
  · exact closed_closeSocket_mono _ _ _ (cleanupTunnel_closed_control st sub t ht)
  · exact closed_closeSocket_mono _ _ _ (cleanupTunnel_closed_clients st sub t ht c hc)

/-- Witness for c7_unparseable_frame_reaps_tunnel at a concrete state with a
second live tunnel and a client socket. -/
theorem c7_unparseable_frame_reaps_tunnel_witness :
    ("sC" : String) ≠ "" ∧
    lookupTunnel (handleWebSocketMessage
        ⟨[("sC", ⟨4, [9], true, none, 0⟩), ("sD", ⟨5, [], true, none, 0⟩)],
          [], [], [], [], 0, true⟩ 4 "sC" true .garbage) "sC" = none :=
  ⟨by decide,
    (c7_unparseable_frame_reaps_tunnel
      ⟨[("sC", ⟨4, [9], true, none, 0⟩), ("sD", ⟨5, [], true, none, 0⟩)],
        [], [], [], [], 0, true⟩ "sC" ⟨4, [9], true, none, 0⟩ (by decide) (by decide)).1⟩

end Bunnel

namespace Bunnel

/-- Counterexample to C2 as stated: an agent connects and is assigned
subdomain "tun0"; its control channel closes (grace timer armed); it
reconnects before the grace deadline, but the upgrade path allocates the
fresh subdomain "tun1" ≠ "tun0" and binds the new channel under "tun1" —
the "tun0" entry stays offline with its grace timer still armed, so the
subdomain is not preserved. -/
theorem c2_fresh_subdomain_on_reconnect_cex :
    (routeUpgrade (handleWebSocketClose (handleWebSocketOpen
        (routeUpgrade initState "localhost").2 0 1 "tun0" true) 5 1 "tun0") "localhost").1
      = .control "tun1" ∧
    ("tun1" : String) ≠ "tun0" ∧
    lookupTunnel (handleWebSocketOpen (routeUpgrade (handleWebSocketClose
        (handleWebSocketOpen (routeUpgrade initState "localhost").2 0 1 "tun0" true)
        5 1 "tun0") "localhost").2 6 2 "tun1" true) "tun0"
      = some ⟨1, [], false, some 1, 0⟩ ∧
    "tun0" ∈ (handleWebSocketOpen (routeUpgrade (handleWebSocketClose
        (handleWebSocketOpen (routeUpgrade initState "localhost").2 0 1 "tun0" true)
        5 1 "tun0") "localhost").2 6 2 "tun1" true).graceArmed ∧
    lookupTunnel (handleWebSocketOpen (routeUpgrade (handleWebSocketClose
        (handleWebSocketOpen (routeUpgrade initState "localhost").2 0 1 "tun0" true)
        5 1 "tun0") "localhost").2 6 2 "tun1" true) "tun1"
      = some ⟨2, [], true, none, 6⟩ := by
  decide

/-- C2 amended: the registry-level reattach mechanics do hold — a
control-channel open carrying the same subdomain as an offline entry
cancels its grace timer, rebinds the channel, and returns the entry to
Online under that subdomain — but the upgrade path allocates a fresh
subdomain for every agent control connection without consulting the
registry or the agent's prior subdomain, so a reconnecting agent obtains a
different subdomain whether it returns before or after the grace
deadline. -/
theorem c2_grace_reattach_latent_amended (st : ServerState) (now sock : Nat) (sub : String)
    (t : TunnelInfo) (hsub : sub ≠ "") (ht : lookupTunnel st sub = some t)
    (hoff : t.online = false) :
    lookupTunnel (handleWebSocketOpen st now sock sub true) sub
      = some { t with controlSocket := sock, online := true, lastActive := now } ∧
    sub ∉ (handleWebSocketOpen st now sock sub true).graceArmed ∧
    (∀ host, ((hostParts host).length < 2 ∨ (hostParts host).getLast? ≠ some "localhost") →
      routeUpgrade st host
        = (.control (generateSubdomain st.nextSub), { st with nextSub := st.nextSub + 1 })) := by
  have hs : (sub == "") = false := by simp [hsub]
  have hred : handleWebSocketOpen st now sock sub true
      = setTunnel { st with graceArmed := st.graceArmed.filter (· != sub) } sub
          { t with controlSocket := sock, online := true, lastActive := now } := by
    simp [handleWebSocketOpen, hs, ht, hoff]
  refine ⟨?_, ?_, ?_⟩
  · rw [hred]
    exact lookupTunnel_setTunnel_self _ _ _
  · rw [hred]
    show sub ∉ st.graceArmed.filter (· != sub)
    simp
  · intro host hcond
    have hnc : ¬ (2 ≤ (hostParts host).length ∧
        (hostParts host).getLast? = some "localhost") := by
      rcases hcond with h | h
      · exact fun hc => absurd hc.1 (by omega)
      · exact fun hc => h hc.2
    simp [routeUpgrade, hnc]

/-- Witness for c2_grace_reattach_latent_amended at a concrete offline
entry. -/
theorem c2_grace_reattach_latent_amended_witness :
    lookupTunnel ⟨[("sE", ⟨1, [], false, some 1, 0⟩)], [], [], [], ["sE"], 1, true⟩ "sE"
      = some ⟨1, [], false, some 1, 0⟩ ∧
    lookupTunnel (handleWebSocketOpen
        ⟨[("sE", ⟨1, [], false, some 1, 0⟩)], [], [], [], ["sE"], 1, true⟩ 7 8 "sE" true) "sE"
      = some ⟨8, [], true, some 1, 7⟩ :=
  ⟨by decide,
    (c2_grace_reattach_latent_amended
      ⟨[("sE", ⟨1, [], false, some 1, 0⟩)], [], [], [], ["sE"], 1, true⟩ 7 8 "sE"
      ⟨1, [], false, some 1, 0⟩ (by decide) (by decide) (by decide)).1⟩

/-- Counterexample to C8 as stated: the host "example.com" — neither rooted
at the configured root label nor of shape label.root nor single-label in the
claim's sense — receives a control connection with a fresh subdomain
instead of a 404/400, and a tunnel is then created for it. -/
theorem c8_nonlocalhost_host_becomes_control_cex :
    (routeUpgrade initState "example.com").1 = .control "tun0" ∧
    (routeUpgrade initState "example.com").1 ≠ .notFound ∧
    lookupTunnel (handleWebSocketOpen (routeUpgrade initState "example.com").2 0 1 "tun0" true)
        "tun0" = some ⟨1, [], true, none, 0⟩ := by
  decide

/-- C8 amended: upgrade routing is decided by the LAST label of the
port-stripped host: a host with at least two labels ending in "localhost"
is a secondary-client request for its first label (404 "Tunnel not found"
when that label is not a live tunnel, a client channel when it is); every
other host — single-label or not ending in "localhost" — becomes a new
agent control connection with a freshly allocated subdomain; no 400 is ever
issued. -/
theorem c8_upgrade_routing_amended (st : ServerState) (host : String) :
    (2 ≤ (hostParts host).length ∧ (hostParts host).getLast? = some "localhost" →
      (lookupTunnel st ((hostParts host).headD "") = none →
        routeUpgrade st host = (.notFound, st)) ∧
      (∀ t, lookupTunnel st ((hostParts host).headD "") = some t →
        routeUpgrade st host = (.client ((hostParts host).headD ""), st))) ∧
    ((hostParts host).length < 2 ∨ (hostParts host).getLast? ≠ some "localhost" →
      routeUpgrade st host
        = (.control (generateSubdomain st.nextSub), { st with nextSub := st.nextSub + 1 })) := by
  constructor
  · intro hcond
    constructor
    · intro hnone
      simp only [routeUpgrade]
      rw [if_pos hcond, hnone]
    · intro t hsome
      simp only [routeUpgrade]
      rw [if_pos hcond, hsome]
  · intro hcond
    have hnc : ¬ (2 ≤ (hostParts host).length ∧
        (hostParts host).getLast? = some "localhost") := by
      rcases hcond with h | h
      · exact fun hc => absurd hc.1 (by omega)
      · exact fun hc => h hc.2
    simp only [routeUpgrade]
    rw [if_neg hnc]

/-- Witness for c8_upgrade_routing_amended: an unknown label under
localhost gets the 404 branch. -/
theorem c8_upgrade_routing_amended_witness :
    (2 ≤ (hostParts "a.localhost").length ∧
      (hostParts "a.localhost").getLast? = some "localhost") ∧
    routeUpgrade initState "a.localhost" = (.notFound, initState) :=
  ⟨by decide,
    ((c8_upgrade_routing_amended initState "a.localhost").1 (by decide)).1 (by decide)⟩

end Bunnel

namespace Bunnel

theorem upsertHeader_fresh (acc : List (String × String)) (k v : String)
    (h : ∀ p ∈ acc, p.1 ≠ k) : upsertHeader acc k v = acc ++ [(k, v)] := by
  induction acc with
  | nil => rfl
  | cons a l ih =>
    have ha : (a.1 == k) = false := by simp [h a (List.mem_cons_self a l)]
    simp [upsertHeader, ha, ih (fun p hp => h p (List.mem_cons_of_mem a hp))]

theorem foldl_upsert_fresh (hs : List (String × String)) :
    ∀ acc, hs.Pairwise (fun a b => a.1 ≠ b.1) →
      (∀ p ∈ acc, ∀ q ∈ hs, p.1 ≠ q.1) →
      hs.foldl (fun a kv => upsertHeader a kv.1 kv.2) acc = acc ++ hs := by
  induction hs with
  | nil => intro acc _ _; simp
  | cons q hs ih =>
    intro acc hnd hdisj
    rw [List.foldl_cons]
    have h1 : upsertHeader acc q.1 q.2 = acc ++ [q] := by
      have := upsertHeader_fresh acc q.1 q.2
        (fun p hp => hdisj p hp q (List.mem_cons_self q hs))
      simpa using this
    rw [h1, ih (acc ++ [q]) (List.Pairwise.of_cons hnd) ?_]
    · simp
    · intro p hp r hr
      rcases List.mem_append.mp hp with h2 | h2
      · exact hdisj p h2 r (List.mem_cons_of_mem q hr)
      · have hp' : p = q := by simpa using h2
        subst hp'
        exact (List.pairwise_cons.mp hnd).1 r hr

/-- A header list whose keys are pairwise distinct passes through the JS
object conversion unchanged. -/
theorem headersToObject_eq_self (hs : List (String × String))
    (hnd : hs.Pairwise (fun a b => a.1 ≠ b.1)) : headersToObject hs = hs := by
  have := foldl_upsert_fresh hs [] hnd (by intro p hp; cases hp)
  simpa [headersToObject] using this

/-- C1: end-to-end exactness of a tunneled exchange.  The server serializes
(method, path+query, headers, body) into the WireRequest under the fresh
RequestId; the agent performs exactly that request against the local
service URL and answers under the same id with the service's
(status, headers, body); and the control-channel message handler completes
the waiting caller with exactly that triple, leaving the rest of the server
state (including the pending table) as it was. -/
theorem c1_tunneled_response_roundtrip (st : ServerState) (sub : String) (t : TunnelInfo)
    (reqId : String) (r : HttpReq) (url : String) (svc : LocalService)
    (hsub : sub ≠ "") (ht : lookupTunnel st sub = some t)
    (hfresh : ∀ p ∈ st.pending, p.id ≠ reqId)
    (hkeys : ((svc r.method (url ++ r.path) (headersToObject r.headers) r.body).2.1).Pairwise
      (fun a b => a.1 ≠ b.1)) :
    forwardRequest st sub reqId r
      = ({ st with pending := setPendingList st.pending ⟨reqId, sub⟩ }, none,
          [.sendFrame ⟨reqId, r.method, r.path, headersToObject r.headers, r.body⟩,
            .installPending reqId]) ∧
    agentHandleRequest url svc (buildTunnelRequest reqId r)
      = ⟨reqId, (svc r.method (url ++ r.path) (headersToObject r.headers) r.body).1,
          (svc r.method (url ++ r.path) (headersToObject r.headers) r.body).2.1,
          (svc r.method (url ++ r.path) (headersToObject r.headers) r.body).2.2⟩ ∧
    handleWebSocketMessage (forwardRequest st sub reqId r).1 t.controlSocket sub true
        (.frame (agentHandleRequest url svc (buildTunnelRequest reqId r)))
      = { st with completions := st.completions ++
            [(reqId, ⟨(svc r.method (url ++ r.path) (headersToObject r.headers) r.body).1,
              (svc r.method (url ++ r.path) (headersToObject r.headers) r.body).2.1,
              (svc r.method (url ++ r.path) (headersToObject r.headers) r.body).2.2⟩)] } := by
  have hs : (sub == "") = false := by simp [hsub]
  have hagent : agentHandleRequest url svc (buildTunnelRequest reqId r)
      = ⟨reqId, (svc r.method (url ++ r.path) (headersToObject r.headers) r.body).1,
          (svc r.method (url ++ r.path) (headersToObject r.headers) r.body).2.1,
          (svc r.method (url ++ r.path) (headersToObject r.headers) r.body).2.2⟩ := by
    simp only [agentHandleRequest, buildTunnelRequest]
    rw [headersToObject_eq_self _ hkeys]
  have hfw : (forwardRequest st sub reqId r).1
      = { st with pending := setPendingList st.pending ⟨reqId, sub⟩ } := by
    simp [forwardRequest, ht]
  have hfind : (setPendingList st.pending ⟨reqId, sub⟩).find? (fun p => p.id == reqId)
      = some ⟨reqId, sub⟩ := find?_setPendingList_self st.pending ⟨reqId, sub⟩
  have hlook : lookupTunnel { st with pending := setPendingList st.pending ⟨reqId, sub⟩ } sub
      = some t := ht
  have hhas : hasPending { st with pending := setPendingList st.pending ⟨reqId, sub⟩ } reqId
      = true := by
    show ((setPendingList st.pending ⟨reqId, sub⟩).find? (fun p => p.id == reqId)).isSome = true
    rw [hfind]; rfl
  have hpend : (setPendingList st.pending ⟨reqId, sub⟩).filter (fun p => p.id != reqId)
      = st.pending := by
    have h1 : setPendingList st.pending ⟨reqId, sub⟩ = st.pending ++ [⟨reqId, sub⟩] :=
      setPendingList_fresh st.pending ⟨reqId, sub⟩ hfresh
    rw [h1]
    exact filter_append_fresh st.pending ⟨reqId, sub⟩ hfresh
  refine ⟨by simp [forwardRequest, ht, buildTunnelRequest], hagent, ?_⟩
  rw [hfw, hagent]
  simp [handleWebSocketMessage, hs, hlook, hhas, deletePending, hpend]

/-- Witness for c1_tunneled_response_roundtrip: a concrete GET through a
concrete one-tunnel server against a local service answering
200 "hello". -/
theorem c1_tunneled_response_roundtrip_witness :
    ("s1" : String) ≠ "" ∧
    handleWebSocketMessage
        (forwardRequest ⟨[("s1", ⟨1, [], true, none, 0⟩)], [], [], [], [], 0, true⟩ "s1" "r1"
          ⟨"GET", "/hi", [("accept", "text/plain")], none⟩).1
        1 "s1" true
        (.frame (agentHandleRequest "http://localhost:3000"
          (fun _ _ _ _ => (200, [("content-type", "text/plain")], "hello"))
          (buildTunnelRequest "r1" ⟨"GET", "/hi", [("accept", "text/plain")], none⟩)))
      = { tunnels := [("s1", ⟨1, [], true, none, 0⟩)], pending := [],
          completions := [("r1", ⟨200, [("content-type", "text/plain")], "hello"⟩)],
          closed := [], graceArmed := [], nextSub := 0, monitorRunning := true } :=
  ⟨by decide,
    (c1_tunneled_response_roundtrip
      ⟨[("s1", ⟨1, [], true, none, 0⟩)], [], [], [], [], 0, true⟩ "s1" ⟨1, [], true, none, 0⟩
      "r1" ⟨"GET", "/hi", [("accept", "text/plain")], none⟩ "http://localhost:3000"
      (fun _ _ _ _ => (200, [("content-type", "text/plain")], "hello"))
      (by decide) (by decide) (by decide) (by simp)).2.2⟩

end Bunnel
